import Mathlib

/-!
# Hydrogen charge exchange (`include/hydrogen_charge_exchange.hxx`)

A shallow embedding of the charge-exchange component

    Isotope1 + Isotope2+ -> Isotope1+ + Isotope2

Conventions of the embedding.

* `BoutReal` is modelled by exact rationals and a `Field3D` by a function from
  grid points to `BoutReal`; the field operators `-f` and `f - g` of the source
  are the pointwise operators on functions.
* An `Options&` that refers to `state["species"][key]` is modelled by `key`
  itself: two references denote the same record exactly when the keys agree.
  The mutable `state` is passed explicitly and returned.
* A C++ exception (a missing option, a missing species) is `none`.
* The global `bout::globals::dump` is passed explicitly as a `Datafile`.
* A default-constructed (unallocated) `Field3D` member is `none`.
-/

namespace Hermes

/-! ## Data model -/

abbrev BoutReal := ℚ

/-- Index of one grid point. -/
abbrev Ind3D := ℕ

abbrev Field3D := Ind3D → BoutReal

/-- One entry of `state["species"]`: the inputs (`AA`, `density`, `velocity`,
`temperature`) and the three source terms that components add to. -/
structure Species where
  AA : BoutReal
  density : Field3D
  velocity : Field3D
  temperature : Field3D
  density_source : Field3D
  momentum_source : Field3D
  energy_source : Field3D

/-- The section `state["species"]`, keyed by species name ("h", "h+", ...). -/
abbrev State := String → Option Species

/-- The section `alloptions["units"]`. -/
structure Units where
  eV : Option BoutReal
  inv_meters_cubed : Option BoutReal
  seconds : Option BoutReal

/-- The part of `alloptions` the constructors read: the units, and for every
section `name` the setting `alloptions[name]["diagnose"]` (absent: `none`). -/
structure Options where
  units : Units
  diagnose : String → Option Bool

/-- The data members of `HydrogenChargeExchangeIsotope` that `addRepeat` can be
handed. -/
inductive Member where
  | S | F | F2 | E | E2
deriving DecidableEq, Repr

/-- The output file `bout::globals::dump`: the variables registered for
repeated output, in registration order. -/
structure Datafile where
  repeats : List (Member × String)

/-- The call `dump.addRepeat(var, name)`. -/
def Datafile.addRepeat (dump : Datafile) (var : Member) (name : String) : Datafile :=
  { repeats := dump.repeats ++ [(var, name)] }

/-! ## `struct HydrogenChargeExchange` -/

structure HydrogenChargeExchange where
  Tnorm : BoutReal
  Nnorm : BoutReal
  FreqNorm : BoutReal

/-- The constructor `HydrogenChargeExchange(std::string, Options& alloptions, Solver*)`. -/
def HydrogenChargeExchange.new (alloptions : Options) : Option HydrogenChargeExchange :=
  match alloptions.units.eV, alloptions.units.inv_meters_cubed, alloptions.units.seconds with
  | some eV, some inv_meters_cubed, some seconds =>
    some { Tnorm := eV, Nnorm := inv_meters_cubed, FreqNorm := 1 / seconds }
  | _, _, _ => none

/-- The five output arguments of `calculate_rates`. -/
structure Rates where
  R : Field3D
  atom_mom : Field3D
  ion_mom : Field3D
  atom_energy : Field3D
  ion_energy : Field3D

/-- The signature of the member function
`calculate_rates(atom1, ion1, atom2, ion2, R, atom_mom, ion_mom, atom_energy, ion_energy)`:
it reads the object's normalisations, updates the four species inside the state
and hands back the five fields, or throws. -/
abbrev CalculateRates :=
  HydrogenChargeExchange → State → String → String → String → String → Option (State × Rates)

/-! ## `struct HydrogenChargeExchangeIsotope<Isotope1, Isotope2>` -/

structure HydrogenChargeExchangeIsotope extends HydrogenChargeExchange where
  diagnose : Bool
  S : Option Field3D
  F : Option Field3D
  F2 : Option Field3D
  E : Option Field3D
  E2 : Option Field3D

/-- The constructor
`HydrogenChargeExchangeIsotope(std::string name, Options& alloptions, Solver* solver)`. -/
def HydrogenChargeExchangeIsotope.new (Isotope1 Isotope2 : Char) (name : String)
    (alloptions : Options) (dump : Datafile) :
    Option (HydrogenChargeExchangeIsotope × Datafile) :=
  match HydrogenChargeExchange.new alloptions with
  | none => none
  | some base =>
    let diagnose := (alloptions.diagnose name).getD false
    let self : HydrogenChargeExchangeIsotope :=
      { toHydrogenChargeExchange := base, diagnose := diagnose,
        S := none, F := none, F2 := none, E := none, E2 := none }
    if diagnose then
      let dump := dump.addRepeat Member.F (String.mk ['F', Isotope1, Isotope2, '+', '_', 'c', 'x'])
      let dump := dump.addRepeat Member.E (String.mk ['E', Isotope1, Isotope2, '+', '_', 'c', 'x'])
      if Isotope1 ≠ Isotope2 then
        let dump := dump.addRepeat Member.F2 (String.mk ['F', Isotope2, '+', Isotope1, '_', 'c', 'x'])
        let dump := dump.addRepeat Member.E2 (String.mk ['E', Isotope2, '+', Isotope1, '_', 'c', 'x'])
        let dump := dump.addRepeat Member.S (String.mk ['S', Isotope1, Isotope2, '+', '_', 'c', 'x'])
        some (self, dump)
      else
        some (self, dump)
    else
      some (self, dump)

/-- The method `transform(Options& state)`; `calculate_rates` is the inherited
member function, whose body is not part of the header. -/
def HydrogenChargeExchangeIsotope.transform (calculate_rates : CalculateRates)
    (Isotope1 Isotope2 : Char) (self : HydrogenChargeExchangeIsotope) (state : State) :
    Option (HydrogenChargeExchangeIsotope × State) :=
  match calculate_rates self.toHydrogenChargeExchange state
      (String.mk [Isotope1])          -- e.g. "h"
      (String.mk [Isotope2, '+'])     -- e.g. "d+"
      (String.mk [Isotope2])          -- e.g. "d"
      (String.mk [Isotope1, '+'])     -- e.g. "h+"
  with
  | none => none
  | some (state, r) =>
    if self.diagnose then
      if Isotope1 = Isotope2 then
        some ({ self with
                F := some (r.ion_mom - r.atom_mom),
                E := some (r.ion_energy - r.atom_energy) }, state)
      else
        some ({ self with
                S := some (-r.R),
                F := some (-r.atom_mom),
                F2 := some (-r.ion_mom),
                E := some (-r.atom_energy),
                E2 := some (-r.ion_energy) }, state)
    else
      some (self, state)

/-! ## The body of `calculate_rates`

The header declares `calculate_rates` and documents it; its body is in a source
file that is not part of the header. The definitions of this section follow the
documentation. -/

/-- Modelled from the spec: the quantities that `calculate_rates` needs and that
neither the header nor the specification fixes. `M` is the combined reference
mass of the effective temperature; `rate_coefficient` is the fitted curve of the
RateCoefficientModel with its clamping and its conversion to normalised units
(it may read the normalisations of the object); `momentum_factor` is the
constant of "proportional to R times the per-particle momentum"; and
`particle_energy mass velocity temperature` is the per-particle thermal plus
kinetic energy of a donor population. -/
structure TransferModel where
  M : BoutReal
  rate_coefficient : HydrogenChargeExchange → BoutReal → BoutReal
  momentum_factor : BoutReal
  particle_energy : BoutReal → BoutReal → BoutReal → BoutReal

/-- Modelled from the spec: the effective temperature, whose computation is in
the missing body of `calculate_rates`. The header documents it as
`T_eff = (M/M_1)T_1 + (M/M_2)T_2` and the specification (4.1) as
`T_eff = (M/mass1)·T1 + (M/mass2)·T2`. -/
def effective_temperature (M mass1 T1 mass2 T2 : BoutReal) : BoutReal :=
  (M / mass1) * T1 + (M / mass2) * T2

/-- Apply `f` to the record behind the reference `key`. -/
def State.modify (state : State) (key : String) (f : Species → Species) : State :=
  fun k => if k = key then (state k).map f else state k

/-- Add the field `f` to the density source of a species. -/
def Species.add_density (f : Field3D) (s : Species) : Species :=
  { s with density_source := s.density_source + f }

/-- Add the field `f` to the momentum source of a species. -/
def Species.add_momentum (f : Field3D) (s : Species) : Species :=
  { s with momentum_source := s.momentum_source + f }

/-- Add the field `f` to the energy source of a species. -/
def Species.add_energy (f : Field3D) (s : Species) : Species :=
  { s with energy_source := s.energy_source + f }

/-- Modelled from the spec: the five fields that the missing body of
`calculate_rates` computes from its two reactants (specification 4.3).

* `R = density(atom1) · density(ion1) · rate_coefficient(T_eff)`, with `T_eff`
  from the masses and temperatures of atom1 and ion1;
* each momentum channel is proportional to `R` times mass times velocity of its
  donor, `atom_mom` for atom1 and `ion_mom` for ion1;
* each energy channel is `R` times the per-particle energy of its donor. -/
def rate_fields (model : TransferModel) (self : HydrogenChargeExchange)
    (atom1 ion1 : Species) : Rates :=
  let Teff : Field3D := fun x =>
    effective_temperature model.M atom1.AA (atom1.temperature x) ion1.AA (ion1.temperature x)
  let R : Field3D := fun x =>
    atom1.density x * ion1.density x * model.rate_coefficient self (Teff x)
  { R := R,
    atom_mom := fun x => model.momentum_factor * (R x * (atom1.AA * atom1.velocity x)),
    ion_mom := fun x => model.momentum_factor * (R x * (ion1.AA * ion1.velocity x)),
    atom_energy := fun x =>
      R x * model.particle_energy atom1.AA (atom1.velocity x) (atom1.temperature x),
    ion_energy := fun x =>
      R x * model.particle_energy ion1.AA (ion1.velocity x) (ion1.temperature x) }

/-- Modelled from the spec: the source updates of the missing body of
`calculate_rates`, as the header documents them. The arguments are references,
so keys into the state.

* `density_source` is set only if atom1 != atom2 or ion1 != ion2; mass goes
  atom1 -> ion2 and ion1 -> atom2;
* `atom_mom` is removed from atom1 and added to ion2, `ion_mom` is removed from
  ion1 and added to atom2; the same for `atom_energy` and `ion_energy`;
* every source is updated additively, one update after the other. -/
def apply_transfers (state : State) (atom1 ion1 atom2 ion2 : String) (r : Rates) : State :=
  let state : State :=
    if atom1 ≠ atom2 ∨ ion1 ≠ ion2 then
      (((state.modify atom1 (Species.add_density (-r.R))).modify
        ion2 (Species.add_density r.R)).modify
        ion1 (Species.add_density (-r.R))).modify atom2 (Species.add_density r.R)
    else
      state
  let state : State :=
    (((state.modify atom1 (Species.add_momentum (-r.atom_mom))).modify
      ion2 (Species.add_momentum r.atom_mom)).modify
      ion1 (Species.add_momentum (-r.ion_mom))).modify atom2 (Species.add_momentum r.ion_mom)
  (((state.modify atom1 (Species.add_energy (-r.atom_energy))).modify
    ion2 (Species.add_energy r.atom_energy)).modify
    ion1 (Species.add_energy (-r.ion_energy))).modify atom2 (Species.add_energy r.ion_energy)

/-- Modelled from the spec: the body of `HydrogenChargeExchange::calculate_rates`,
which is missing. Any of the four species missing from the state is fatal and
nothing is applied (specification 4.3 and 7); otherwise the five fields are
computed from atom1 and ion1 and the transfers are applied. -/
def calculate_rates (model : TransferModel) : CalculateRates :=
  fun self state atom1 ion1 atom2 ion2 =>
    match state atom1, state ion1, state atom2, state ion2 with
    | some a1, some i1, some _, some _ =>
      let r := rate_fields model self a1 i1
      some (apply_transfers state atom1 ion1 atom2 ion2 r, r)
    | _, _, _, _ => none

/-! ## The registered components -/

/-- One `RegisterComponent<HydrogenChargeExchangeIsotope<Isotope1, Isotope2>> r(name)`. -/
structure RegisterComponent where
  Isotope1 : Char
  Isotope2 : Char
  name : String
deriving DecidableEq

def register_cx_hh : RegisterComponent := ⟨'h', 'h', "h + h+ -> h+ + h"⟩
def register_cx_dd : RegisterComponent := ⟨'d', 'd', "d + d+ -> d+ + d"⟩
def register_cx_tt : RegisterComponent := ⟨'t', 't', "t + t+ -> t+ + t"⟩
def register_cx_hd : RegisterComponent := ⟨'h', 'd', "h + d+ -> h+ + d"⟩
def register_cx_dh : RegisterComponent := ⟨'d', 'h', "d + h+ -> d+ + h"⟩
def register_cx_ht : RegisterComponent := ⟨'h', 't', "h + t+ -> h+ + t"⟩
def register_cx_th : RegisterComponent := ⟨'t', 'h', "t + h+ -> t+ + h"⟩
def register_cx_dt : RegisterComponent := ⟨'d', 't', "d + t+ -> d+ + t"⟩
def register_cx_td : RegisterComponent := ⟨'t', 'd', "t + d+ -> t+ + d"⟩

/-- The registrations of the anonymous namespace, in source order. -/
def registered_components : List RegisterComponent :=
  [register_cx_hh, register_cx_dd, register_cx_tt,
   register_cx_hd, register_cx_dh,
   register_cx_ht, register_cx_th,
   register_cx_dt, register_cx_td]

/-- Construct every component of a list one after the other against the one
shared `dump`; `instance_name` gives the name each is constructed under. Any
constructor that throws aborts the whole start-up. -/
def construct_all (alloptions : Options) (instance_name : RegisterComponent → String) :
    List RegisterComponent → Datafile → Option (List HydrogenChargeExchangeIsotope × Datafile)
  | [], dump => some ([], dump)
  | c :: cs, dump =>
    match HydrogenChargeExchangeIsotope.new c.Isotope1 c.Isotope2 (instance_name c) alloptions dump with
    | none => none
    | some (inst, dump) =>
      match construct_all alloptions instance_name cs dump with
      | none => none
      | some (insts, dump) => some (inst :: insts, dump)

/-! ## Sample data

A small concrete configuration on which the statements below are instantiated:
hydrogen and deuterium atoms and ions on a uniform grid. -/

/-- A species that is uniform in space and has received no sources yet. -/
def uniform_species (AA n v T : BoutReal) : Species :=
  { AA := AA, density := fun _ => n, velocity := fun _ => v, temperature := fun _ => T,
    density_source := fun _ => 0, momentum_source := fun _ => 0, energy_source := fun _ => 0 }

/-- A state holding "h", "h+", "d" and "d+"; the deuterium atoms are twice as
dense as the three other populations, and only the hydrogen ions drift. -/
def sample_state : State := fun k =>
  if k = "h" then some (uniform_species 1 1 0 5)
  else if k = "h+" then some (uniform_species 1 1 3 5)
  else if k = "d" then some (uniform_species 2 2 0 5)
  else if k = "d+" then some (uniform_species 2 1 0 5)
  else none

/-- A transfer model with a constant rate coefficient. -/
def sample_model : TransferModel :=
  { M := 2, rate_coefficient := fun _ _ => 1, momentum_factor := 1,
    particle_energy := fun mass v T => 3 / 2 * T + 1 / 2 * mass * (v * v) }

/-- Options with all three units set and diagnostics switched on everywhere. -/
def sample_options : Options :=
  { units := { eV := some 1, inv_meters_cubed := some 1, seconds := some 1 },
    diagnose := fun _ => some true }

/-- A freshly constructed instance with diagnostics switched on. -/
def sample_self : HydrogenChargeExchangeIsotope :=
  { Tnorm := 1, Nnorm := 1, FreqNorm := 1, diagnose := true,
    S := none, F := none, F2 := none, E := none, E2 := none }

/-- The five fields of the reaction h + d+ -> h+ + d on the sample state. -/
def sample_rates_hd : Rates :=
  rate_fields sample_model sample_self.toHydrogenChargeExchange
    (uniform_species 1 1 0 5) (uniform_species 2 1 0 5)

/-- The five fields of the reaction d + h+ -> d+ + h on the sample state. -/
def sample_rates_dh : Rates :=
  rate_fields sample_model sample_self.toHydrogenChargeExchange
    (uniform_species 2 2 0 5) (uniform_species 1 1 3 5)

/-- The five fields of the reaction h + h+ -> h+ + h on the sample state. -/
def sample_rates_hh : Rates :=
  rate_fields sample_model sample_self.toHydrogenChargeExchange
    (uniform_species 1 1 0 5) (uniform_species 1 1 3 5)

/-- A state holding "h", "h+", "d" and "d+" in which every population drifts,
each with a velocity of its own. -/
def drifting_state : State := fun k =>
  if k = "h" then some (uniform_species 1 1 2 5)
  else if k = "h+" then some (uniform_species 1 1 3 5)
  else if k = "d" then some (uniform_species 2 2 1 5)
  else if k = "d+" then some (uniform_species 2 1 4 5)
  else none

/-- The five fields of the reaction h + d+ -> h+ + d on the drifting state. -/
def drifting_rates_hd : Rates :=
  rate_fields sample_model sample_self.toHydrogenChargeExchange
    (uniform_species 1 1 2 5) (uniform_species 2 1 4 5)

/-! ## Species keys -/

theorem atom_key_ne_ion_key (a b : Char) : String.mk [a] ≠ String.mk [b, '+'] := by
  simp [String.ext_iff]

theorem atom_key_eq_iff (a b : Char) : String.mk [a] = String.mk [b] ↔ a = b := by
  simp [String.ext_iff]

theorem ion_key_eq_iff (a b : Char) : String.mk [a, '+'] = String.mk [b, '+'] ↔ a = b := by
  simp [String.ext_iff]

/-! ## `transform`: the call of `calculate_rates` and the diagnostics -/

/-- C3: for every isotope pair, `transform` hands the state to `calculate_rates`
exactly once, with atom1 = `state["species"][I1]`, ion1 = `[I2 followed by '+']`,
atom2 = `[I2]`, ion2 = `[I1 followed by '+']`: whatever `calculate_rates` is, the
state after `transform` is the state after that one call, and `transform` throws
exactly when the call throws. For the pair (h,d) the four keys are "h", "d+",
"d", "h+". -/
theorem transform_calls_calculate_rates_once (rates : CalculateRates) (Isotope1 Isotope2 : Char)
    (self : HydrogenChargeExchangeIsotope) (state : State) :
    (HydrogenChargeExchangeIsotope.transform rates Isotope1 Isotope2 self state).map Prod.snd
      = (rates self.toHydrogenChargeExchange state
          Isotope1.toString (Isotope2.toString ++ "+")
          Isotope2.toString (Isotope1.toString ++ "+")).map Prod.fst
    ∧ (HydrogenChargeExchangeIsotope.transform rates 'h' 'd' self state).map Prod.snd
      = (rates self.toHydrogenChargeExchange state "h" "d+" "d" "h+").map Prod.fst := by
  constructor
  · show _ = (rates self.toHydrogenChargeExchange state (String.mk [Isotope1])
      (String.mk [Isotope2, '+']) (String.mk [Isotope2]) (String.mk [Isotope1, '+'])).map Prod.fst
    unfold HydrogenChargeExchangeIsotope.transform
    cases rates self.toHydrogenChargeExchange state (String.mk [Isotope1])
      (String.mk [Isotope2, '+']) (String.mk [Isotope2]) (String.mk [Isotope1, '+']) with
    | none => rfl
    | some p =>
      obtain ⟨st, r⟩ := p
      by_cases hd : self.diagnose = true <;> by_cases hI : Isotope1 = Isotope2 <;> simp [hd, hI]
  · show _ = (rates self.toHydrogenChargeExchange state (String.mk ['h'])
      (String.mk ['d', '+']) (String.mk ['d']) (String.mk ['h', '+'])).map Prod.fst
    unfold HydrogenChargeExchangeIsotope.transform
    cases rates self.toHydrogenChargeExchange state (String.mk ['h'])
      (String.mk ['d', '+']) (String.mk ['d']) (String.mk ['h', '+']) with
    | none => rfl
    | some p =>
      obtain ⟨st, r⟩ := p
      by_cases hd : self.diagnose = true <;> simp [hd]

/-- C5: for a same-isotope pair with `diagnose = true`, when `calculate_rates`
returns the fields `r`, `transform` returns with `F = ion_mom - atom_mom` and
`E = ion_energy - atom_energy` at every grid point, and `S`, `F2` and `E2` are
what they were before. -/
theorem transform_same_isotope_diagnostics (rates : CalculateRates) (Isotope : Char)
    (self : HydrogenChargeExchangeIsotope) (state state1 : State) (r : Rates)
    (hdiag : self.diagnose = true)
    (hrates : rates self.toHydrogenChargeExchange state (String.mk [Isotope])
      (String.mk [Isotope, '+']) (String.mk [Isotope]) (String.mk [Isotope, '+'])
      = some (state1, r)) :
    ∃ self1, HydrogenChargeExchangeIsotope.transform rates Isotope Isotope self state
        = some (self1, state1)
      ∧ self1.F = some (fun x => r.ion_mom x - r.atom_mom x)
      ∧ self1.E = some (fun x => r.ion_energy x - r.atom_energy x)
      ∧ self1.S = self.S ∧ self1.F2 = self.F2 ∧ self1.E2 = self.E2 := by
  refine ⟨{ self with F := some (r.ion_mom - r.atom_mom),
                      E := some (r.ion_energy - r.atom_energy) }, ?_, rfl, rfl, rfl, rfl, rfl⟩
  simp [HydrogenChargeExchangeIsotope.transform, hrates, hdiag]

/-- C5, instantiated: the (h,h) instance on the sample state, with the modelled
`calculate_rates`. -/
theorem transform_same_isotope_diagnostics_witness :
    sample_self.diagnose = true
    ∧ ∃ self1 state1 r,
        calculate_rates sample_model sample_self.toHydrogenChargeExchange sample_state
          "h" "h+" "h" "h+" = some (state1, r)
      ∧ HydrogenChargeExchangeIsotope.transform (calculate_rates sample_model) 'h' 'h'
          sample_self sample_state = some (self1, state1)
      ∧ self1.F = some (fun x => r.ion_mom x - r.atom_mom x)
      ∧ self1.E = some (fun x => r.ion_energy x - r.atom_energy x)
      ∧ self1.S = none ∧ self1.F2 = none ∧ self1.E2 = none := by
  obtain ⟨state1, r, h⟩ : ∃ state1 r,
      calculate_rates sample_model sample_self.toHydrogenChargeExchange sample_state
        (String.mk ['h']) (String.mk ['h', '+']) (String.mk ['h']) (String.mk ['h', '+'])
        = some (state1, r) := ⟨_, _, rfl⟩
  obtain ⟨self1, h1, h2, h3, h4, h5, h6⟩ :=
    transform_same_isotope_diagnostics (calculate_rates sample_model) 'h'
      sample_self sample_state state1 r rfl h
  exact ⟨rfl, self1, state1, r, h, h1, h2, h3, h4, h5, h6⟩

/-- C6: for a cross-isotope pair with `diagnose = true`, when `calculate_rates`
returns the fields `r`, `transform` returns with all five diagnostics set, each
the pointwise negation of its field: `S = -R`, `F = -atom_mom`, `F2 = -ion_mom`,
`E = -atom_energy`, `E2 = -ion_energy`. -/
theorem transform_cross_isotope_diagnostics (rates : CalculateRates) (Isotope1 Isotope2 : Char)
    (self : HydrogenChargeExchangeIsotope) (state state1 : State) (r : Rates)
    (hne : Isotope1 ≠ Isotope2)
    (hdiag : self.diagnose = true)
    (hrates : rates self.toHydrogenChargeExchange state (String.mk [Isotope1])
      (String.mk [Isotope2, '+']) (String.mk [Isotope2]) (String.mk [Isotope1, '+'])
      = some (state1, r)) :
    ∃ self1, HydrogenChargeExchangeIsotope.transform rates Isotope1 Isotope2 self state
        = some (self1, state1)
      ∧ self1.S = some (fun x => - r.R x)
      ∧ self1.F = some (fun x => - r.atom_mom x)
      ∧ self1.F2 = some (fun x => - r.ion_mom x)
      ∧ self1.E = some (fun x => - r.atom_energy x)
      ∧ self1.E2 = some (fun x => - r.ion_energy x) := by
  refine ⟨{ self with S := some (-r.R), F := some (-r.atom_mom), F2 := some (-r.ion_mom),
                      E := some (-r.atom_energy), E2 := some (-r.ion_energy) },
    ?_, rfl, rfl, rfl, rfl, rfl⟩
  simp [HydrogenChargeExchangeIsotope.transform, hrates, hdiag, hne]


/-- C6, instantiated: the (h,d) instance on the sample state, with the modelled
`calculate_rates`. -/
theorem transform_cross_isotope_diagnostics_witness :
    'h' ≠ 'd' ∧ sample_self.diagnose = true
    ∧ ∃ self1 state1 r,
        calculate_rates sample_model sample_self.toHydrogenChargeExchange sample_state
          "h" "d+" "d" "h+" = some (state1, r)
      ∧ HydrogenChargeExchangeIsotope.transform (calculate_rates sample_model) 'h' 'd'
          sample_self sample_state = some (self1, state1)
      ∧ self1.S = some (fun x => - r.R x)
      ∧ self1.F = some (fun x => - r.atom_mom x)
      ∧ self1.F2 = some (fun x => - r.ion_mom x)
      ∧ self1.E = some (fun x => - r.atom_energy x)
      ∧ self1.E2 = some (fun x => - r.ion_energy x) := by
  obtain ⟨state1, r, h⟩ : ∃ state1 r,
      calculate_rates sample_model sample_self.toHydrogenChargeExchange sample_state
        (String.mk ['h']) (String.mk ['d', '+']) (String.mk ['d']) (String.mk ['h', '+'])
        = some (state1, r) := ⟨_, _, rfl⟩
  obtain ⟨self1, h1, h2, h3, h4, h5, h6⟩ :=
    transform_cross_isotope_diagnostics (calculate_rates sample_model) 'h' 'd'
      sample_self sample_state state1 r (by decide) rfl h
  exact ⟨by decide, rfl, self1, state1, r, h, h1, h2, h3, h4, h5, h6⟩

/-! ## The effective temperature -/

/-- C9, as the specification states it, fails: with mass1 = mass2 = M = 2 and
T1 = T2 = 5 the effective temperature is not 20. -/
theorem effective_temperature_scenario_not_20 :
    effective_temperature 2 2 5 2 5 ≠ 20 := by
  norm_num [effective_temperature]

/-- C9, amended: with mass1 = mass2 = M = 2 and T1 = T2 = 5 the effective
temperature `(M/mass1)·T1 + (M/mass2)·T2` is 10; the value 20 is what the
formula gives for mass1 = mass2 = 1 with M = 2, the quotients `2/1` that the
scenario writes out. -/
theorem effective_temperature_scenario :
    effective_temperature 2 2 5 2 5 = 10 ∧ effective_temperature 2 1 5 1 5 = 20 := by
  constructor <;> norm_num [effective_temperature]

/-! ## The registrations -/

/-- C10: the registered components are exactly nine, one for each ordered pair
of {h,d,t}x{h,d,t} with none missing and none twice, three of them same-isotope
and six cross-isotope; their names are pairwise distinct, and each name is
"I1 + I2+ -> I1+ + I2" for its own template arguments, so the (h,d) instance is
registered under "h + d+ -> h+ + d". -/
theorem registered_components_exactly_nine :
    registered_components.length = 9
    ∧ (registered_components.map (fun c => (c.Isotope1, c.Isotope2))).Nodup
    ∧ (∀ a ∈ ['h', 'd', 't'], ∀ b ∈ ['h', 'd', 't'],
        (a, b) ∈ registered_components.map (fun c => (c.Isotope1, c.Isotope2)))
    ∧ (∀ c ∈ registered_components,
        c.Isotope1 ∈ ['h', 'd', 't'] ∧ c.Isotope2 ∈ ['h', 'd', 't'])
    ∧ (registered_components.filter (fun c => c.Isotope1 = c.Isotope2)).length = 3
    ∧ (registered_components.filter (fun c => c.Isotope1 ≠ c.Isotope2)).length = 6
    ∧ (registered_components.map RegisterComponent.name).Nodup
    ∧ (∀ c ∈ registered_components,
        c.name = c.Isotope1.toString ++ " + " ++ c.Isotope2.toString ++ "+ -> "
                  ++ c.Isotope1.toString ++ "+ + " ++ c.Isotope2.toString)
    ∧ (∀ c ∈ registered_components, c.Isotope1 = 'h' → c.Isotope2 = 'd' →
        c.name = "h + d+ -> h+ + d") := by
  refine ⟨rfl, by decide, by decide, by decide, by decide, by decide, by decide, by decide,
    by decide⟩

/-! ## The constructor and the diagnostics it registers -/

/-- The constructor, unfolded once the base-class constructor has returned. -/
theorem new_unfold (Isotope1 Isotope2 : Char) (name : String) (alloptions : Options)
    (dump : Datafile) (base : HydrogenChargeExchange)
    (hbase : HydrogenChargeExchange.new alloptions = some base) :
    HydrogenChargeExchangeIsotope.new Isotope1 Isotope2 name alloptions dump
      = some ({ toHydrogenChargeExchange := base,
                diagnose := (alloptions.diagnose name).getD false,
                S := none, F := none, F2 := none, E := none, E2 := none },
          if (alloptions.diagnose name).getD false = true then
            if Isotope1 ≠ Isotope2 then
              { repeats := dump.repeats ++
                  [(Member.F, String.mk ['F', Isotope1, Isotope2, '+', '_', 'c', 'x']),
                   (Member.E, String.mk ['E', Isotope1, Isotope2, '+', '_', 'c', 'x']),
                   (Member.F2, String.mk ['F', Isotope2, '+', Isotope1, '_', 'c', 'x']),
                   (Member.E2, String.mk ['E', Isotope2, '+', Isotope1, '_', 'c', 'x']),
                   (Member.S, String.mk ['S', Isotope1, Isotope2, '+', '_', 'c', 'x'])] }
            else
              { repeats := dump.repeats ++
                  [(Member.F, String.mk ['F', Isotope1, Isotope2, '+', '_', 'c', 'x']),
                   (Member.E, String.mk ['E', Isotope1, Isotope2, '+', '_', 'c', 'x'])] }
          else dump) := by
  unfold HydrogenChargeExchangeIsotope.new
  rw [hbase]
  by_cases hd : (alloptions.diagnose name).getD false = true <;>
    by_cases hI : Isotope1 = Isotope2 <;>
    simp [hd, hI, Datafile.addRepeat]

/-- C7: when the three units are set, the constructor of the instance for
(I1,I2) returns, its `diagnose` flag is the option (false when absent), and
with the flag false it registers nothing; with the flag true and I1 = I2 it
appends exactly "F I1 I2 +_cx" and "E I1 I2 +_cx"; with the flag true and
I1 != I2 it appends exactly five names, those two and then "F I2 + I1 _cx",
"E I2 + I1 _cx" and "S I1 I2 +_cx"; for (h,d) these are "Fhd+_cx", "Ehd+_cx",
"Fd+h_cx", "Ed+h_cx", "Shd+_cx". -/
theorem constructor_registers_diagnostics (Isotope1 Isotope2 : Char) (name : String)
    (alloptions : Options) (dump : Datafile) (eV inv_meters_cubed seconds : BoutReal)
    (hunits : alloptions.units
      = { eV := some eV, inv_meters_cubed := some inv_meters_cubed, seconds := some seconds }) :
    (∃ self dump1,
        HydrogenChargeExchangeIsotope.new Isotope1 Isotope2 name alloptions dump
          = some (self, dump1)
      ∧ self.diagnose = (alloptions.diagnose name).getD false
      ∧ (alloptions.diagnose name = none → self.diagnose = false)
      ∧ (self.diagnose = false → dump1 = dump)
      ∧ (self.diagnose = true → Isotope1 = Isotope2 →
          dump1.repeats = dump.repeats ++
            [(Member.F, "F" ++ Isotope1.toString ++ Isotope2.toString ++ "+_cx"),
             (Member.E, "E" ++ Isotope1.toString ++ Isotope2.toString ++ "+_cx")])
      ∧ (self.diagnose = true → Isotope1 ≠ Isotope2 →
          dump1.repeats = dump.repeats ++
            [(Member.F, "F" ++ Isotope1.toString ++ Isotope2.toString ++ "+_cx"),
             (Member.E, "E" ++ Isotope1.toString ++ Isotope2.toString ++ "+_cx"),
             (Member.F2, "F" ++ Isotope2.toString ++ "+" ++ Isotope1.toString ++ "_cx"),
             (Member.E2, "E" ++ Isotope2.toString ++ "+" ++ Isotope1.toString ++ "_cx"),
             (Member.S, "S" ++ Isotope1.toString ++ Isotope2.toString ++ "+_cx")]))
    ∧ (alloptions.diagnose name = some true →
        ∃ self dump1,
          HydrogenChargeExchangeIsotope.new 'h' 'd' name alloptions dump = some (self, dump1)
        ∧ dump1.repeats = dump.repeats ++
            [(Member.F, "Fhd+_cx"), (Member.E, "Ehd+_cx"), (Member.F2, "Fd+h_cx"),
             (Member.E2, "Ed+h_cx"), (Member.S, "Shd+_cx")]) := by
  have hbase : HydrogenChargeExchange.new alloptions
      = some { Tnorm := eV, Nnorm := inv_meters_cubed, FreqNorm := 1 / seconds } := by
    simp [HydrogenChargeExchange.new, hunits]
  constructor
  · rw [new_unfold Isotope1 Isotope2 name alloptions dump _ hbase]
    refine ⟨_, _, rfl, rfl, ?_, ?_, ?_, ?_⟩
    · intro h
      simp [h]
    · intro h
      simp only at h
      simp [h]
    · intro h hI
      simp only at h
      simp [h, hI]
      exact ⟨rfl, rfl⟩
    · intro h hI
      simp only at h
      simp [h, hI]
      exact ⟨rfl, rfl, rfl, rfl, rfl⟩
  · intro hd
    rw [new_unfold 'h' 'd' name alloptions dump _ hbase]
    refine ⟨_, _, rfl, ?_⟩
    simp [hd]

/-- C7, instantiated: the (d,t) instance constructed under the name "reactions"
from the sample options into an empty output file. -/
theorem constructor_registers_diagnostics_witness :
    sample_options.units = { eV := some 1, inv_meters_cubed := some 1, seconds := some 1 }
    ∧ ∃ self dump1,
        HydrogenChargeExchangeIsotope.new 'd' 't' "reactions" sample_options { repeats := [] }
          = some (self, dump1)
      ∧ self.diagnose = true
      ∧ dump1.repeats =
          [(Member.F, "Fdt+_cx"), (Member.E, "Edt+_cx"), (Member.F2, "Ft+d_cx"),
           (Member.E2, "Et+d_cx"), (Member.S, "Sdt+_cx")] := by
  obtain ⟨⟨self, dump1, h1, h2, _, _, _, h6⟩, _⟩ :=
    constructor_registers_diagnostics 'd' 't' "reactions" sample_options { repeats := [] }
      1 1 1 rfl
  exact ⟨rfl, self, dump1, h1, h2, h6 h2 (by decide)⟩

/-- C8: when all nine registered components are constructed with
`diagnose = true` against one output file that starts empty, every constructor
returns and the 36 registrations carry 36 pairwise different names. -/
theorem diagnostic_names_pairwise_distinct (alloptions : Options)
    (instance_name : RegisterComponent → String) (eV inv_meters_cubed seconds : BoutReal)
    (hunits : alloptions.units
      = { eV := some eV, inv_meters_cubed := some inv_meters_cubed, seconds := some seconds })
    (hdiag : ∀ c ∈ registered_components, alloptions.diagnose (instance_name c) = some true) :
    ∃ insts dump,
        construct_all alloptions instance_name registered_components { repeats := [] }
          = some (insts, dump)
      ∧ insts.length = 9
      ∧ dump.repeats.length = 36
      ∧ (dump.repeats.map Prod.snd).Nodup := by
  have hbase : HydrogenChargeExchange.new alloptions
      = some { Tnorm := eV, Nnorm := inv_meters_cubed, FreqNorm := 1 / seconds } := by
    simp [HydrogenChargeExchange.new, hunits]
  have h1 := hdiag register_cx_hh (by decide)
  have h2 := hdiag register_cx_dd (by decide)
  have h3 := hdiag register_cx_tt (by decide)
  have h4 := hdiag register_cx_hd (by decide)
  have h5 := hdiag register_cx_dh (by decide)
  have h6 := hdiag register_cx_ht (by decide)
  have h7 := hdiag register_cx_th (by decide)
  have h8 := hdiag register_cx_dt (by decide)
  have h9 := hdiag register_cx_td (by decide)
  cases hres : construct_all alloptions instance_name registered_components { repeats := [] } with
  | none =>
    simp [construct_all, registered_components, new_unfold _ _ _ _ _ _ hbase,
      h1, h2, h3, h4, h5, h6, h7, h8, h9] at hres
  | some p =>
    obtain ⟨insts, dump⟩ := p
    simp [construct_all, registered_components, new_unfold _ _ _ _ _ _ hbase,
      h1, h2, h3, h4, h5, h6, h7, h8, h9] at hres
    obtain ⟨rfl, rfl⟩ := hres
    exact ⟨_, _, rfl, rfl, rfl, by decide⟩

/-- C8, instantiated: the sample options, every component constructed under
its registered name. -/
theorem diagnostic_names_pairwise_distinct_witness :
    sample_options.units = { eV := some 1, inv_meters_cubed := some 1, seconds := some 1 }
    ∧ (∀ c ∈ registered_components, sample_options.diagnose c.name = some true)
    ∧ ∃ insts dump,
        construct_all sample_options RegisterComponent.name registered_components
          { repeats := [] } = some (insts, dump)
      ∧ insts.length = 9
      ∧ dump.repeats.length = 36
      ∧ (dump.repeats.map Prod.snd).Nodup :=
  ⟨rfl, fun _ _ => rfl,
    diagnostic_names_pairwise_distinct sample_options RegisterComponent.name 1 1 1 rfl
      (fun _ _ => rfl)⟩

/-! ## The source terms under the modelled `calculate_rates` -/

theorem density_source_modify_momentum (state : State) (k : String) (g : Field3D)
    (key : String) :
    ((state.modify k (Species.add_momentum g)) key).map Species.density_source
      = (state key).map Species.density_source := by
  unfold State.modify
  split_ifs <;> cases state key <;> rfl

theorem density_source_modify_energy (state : State) (k : String) (g : Field3D)
    (key : String) :
    ((state.modify k (Species.add_energy g)) key).map Species.density_source
      = (state key).map Species.density_source := by
  unfold State.modify
  split_ifs <;> cases state key <;> rfl

theorem momentum_source_modify_density (state : State) (k : String) (g : Field3D)
    (key : String) :
    ((state.modify k (Species.add_density g)) key).map Species.momentum_source
      = (state key).map Species.momentum_source := by
  unfold State.modify
  split_ifs <;> cases state key <;> rfl

theorem momentum_source_modify_energy (state : State) (k : String) (g : Field3D)
    (key : String) :
    ((state.modify k (Species.add_energy g)) key).map Species.momentum_source
      = (state key).map Species.momentum_source := by
  unfold State.modify
  split_ifs <;> cases state key <;> rfl

theorem momentum_source_modify_momentum (state : State) (k : String) (g : Field3D)
    (key : String) :
    ((state.modify k (Species.add_momentum g)) key).map Species.momentum_source
      = ((state key).map Species.momentum_source).map
          (fun m => if key = k then m + g else m) := by
  unfold State.modify
  split_ifs <;> cases state key <;> rfl

/-- The momentum source of any species after the transfers of one channel. -/
theorem momentum_source_apply_transfers (state : State) (atom1 ion1 atom2 ion2 : String)
    (r : Rates) (key : String) :
    ((apply_transfers state atom1 ion1 atom2 ion2 r) key).map Species.momentum_source
      = ((state key).map Species.momentum_source).map (fun m =>
          (if key = atom2 then fun m => m + r.ion_mom else id)
            ((if key = ion1 then fun m => m + -r.ion_mom else id)
              ((if key = ion2 then fun m => m + r.atom_mom else id)
                ((if key = atom1 then fun m => m + -r.atom_mom else id) m)))) := by
  unfold apply_transfers
  simp only [momentum_source_modify_energy, momentum_source_modify_momentum]
  by_cases hc : atom1 ≠ atom2 ∨ ion1 ≠ ion2
  · rw [if_pos hc]
    simp only [momentum_source_modify_density]
    cases state key
    · rfl
    · simp only [Option.map_some']
      split_ifs <;> rfl
  · rw [if_neg hc]
    cases state key
    · rfl
    · simp only [Option.map_some']
      split_ifs <;> rfl

/-- The density source of any species after the transfers of one channel whose
products are the very records of its reactants. -/
theorem density_source_apply_transfers_same (state : State) (atom ion : String)
    (r : Rates) (key : String) :
    ((apply_transfers state atom ion atom ion r) key).map Species.density_source
      = (state key).map Species.density_source := by
  unfold apply_transfers
  simp only [density_source_modify_energy, density_source_modify_momentum]
  simp

/-- The method `transform` returns whenever `calculate_rates` does, with the
state that `calculate_rates` left. -/
theorem transform_returns (rates : CalculateRates) (Isotope1 Isotope2 : Char)
    (self : HydrogenChargeExchangeIsotope) (state state1 : State) (r : Rates)
    (hrates : rates self.toHydrogenChargeExchange state (String.mk [Isotope1])
      (String.mk [Isotope2, '+']) (String.mk [Isotope2]) (String.mk [Isotope1, '+'])
      = some (state1, r)) :
    ∃ self1, HydrogenChargeExchangeIsotope.transform rates Isotope1 Isotope2 self state
      = some (self1, state1) := by
  unfold HydrogenChargeExchangeIsotope.transform
  rw [hrates]
  by_cases hd : self.diagnose = true <;> by_cases hI : Isotope1 = Isotope2 <;> simp [hd, hI]

/-- C1: for a same-isotope pair whose atom and ion species are in the state
(with any density, velocity and temperature), `transform` returns and the
density source of every species is at every grid point what it was before:
atom1 and atom2 are the one record `state["species"][I]`, ion1 and ion2 the
one record `state["species"][I+]`, so the density-source step of
`calculate_rates` is not applied. -/
theorem same_isotope_density_source_unchanged (model : TransferModel) (Isotope : Char)
    (self : HydrogenChargeExchangeIsotope) (state : State) (atom ion : Species)
    (hatom : state (String.mk [Isotope]) = some atom)
    (hion : state (String.mk [Isotope, '+']) = some ion) :
    ∃ self1 state1 r,
        calculate_rates model self.toHydrogenChargeExchange state
          Isotope.toString (Isotope.toString ++ "+") Isotope.toString (Isotope.toString ++ "+")
          = some (state1, r)
      ∧ HydrogenChargeExchangeIsotope.transform (calculate_rates model) Isotope Isotope
          self state = some (self1, state1)
      ∧ ∀ key, (state1 key).map Species.density_source
          = (state key).map Species.density_source := by
  have hc : calculate_rates model self.toHydrogenChargeExchange state
      (String.mk [Isotope]) (String.mk [Isotope, '+']) (String.mk [Isotope])
      (String.mk [Isotope, '+'])
      = some (apply_transfers state (String.mk [Isotope]) (String.mk [Isotope, '+'])
          (String.mk [Isotope]) (String.mk [Isotope, '+'])
          (rate_fields model self.toHydrogenChargeExchange atom ion),
        rate_fields model self.toHydrogenChargeExchange atom ion) := by
    simp [calculate_rates, hatom, hion]
  obtain ⟨self1, h1⟩ := transform_returns _ Isotope Isotope self state _ _ hc
  exact ⟨self1, _, _, hc, h1, fun key => density_source_apply_transfers_same _ _ _ _ key⟩

/-- C1, instantiated: the (h,h) instance on the sample state. -/
theorem same_isotope_density_source_unchanged_witness :
    sample_state "h" = some (uniform_species 1 1 0 5)
    ∧ sample_state "h+" = some (uniform_species 1 1 3 5)
    ∧ ∃ self1 state1,
        HydrogenChargeExchangeIsotope.transform (calculate_rates sample_model) 'h' 'h'
          sample_self sample_state = some (self1, state1)
      ∧ ∀ key, (state1 key).map Species.density_source
          = (sample_state key).map Species.density_source := by
  obtain ⟨self1, state1, _, _, h1, h2⟩ :=
    same_isotope_density_source_unchanged sample_model 'h' sample_self sample_state
      (uniform_species 1 1 0 5) (uniform_species 1 1 3 5) rfl rfl
  exact ⟨rfl, rfl, self1, state1, h1, h2⟩

/-- C4: for every pair, same-isotope or cross-isotope, whose four species are in
the state, with `diagnose = true`: `transform` returns with the diagnostic `F`
set, and at every grid point `F` is the momentum source of the Isotope1 atoms
after the call minus the one before, and `-F` is the momentum source of the
Isotope1 ions after the call minus the one before. -/
theorem momentum_diagnostic_is_net_source (model : TransferModel) (Isotope1 Isotope2 : Char)
    (self : HydrogenChargeExchangeIsotope) (state : State) (a1 i1 a2 i2 : Species)
    (hdiag : self.diagnose = true)
    (ha1 : state (String.mk [Isotope1]) = some a1)
    (hi1 : state (String.mk [Isotope2, '+']) = some i1)
    (ha2 : state (String.mk [Isotope2]) = some a2)
    (hi2 : state (String.mk [Isotope1, '+']) = some i2) :
    ∃ self1 state1 F atom_after ion_after,
        HydrogenChargeExchangeIsotope.transform (calculate_rates model) Isotope1 Isotope2
          self state = some (self1, state1)
      ∧ self1.F = some F
      ∧ state1 Isotope1.toString = some atom_after
      ∧ state1 (Isotope1.toString ++ "+") = some ion_after
      ∧ ∀ x, F x = atom_after.momentum_source x - a1.momentum_source x
          ∧ - F x = ion_after.momentum_source x - i2.momentum_source x := by
  have hc : calculate_rates model self.toHydrogenChargeExchange state
      (String.mk [Isotope1]) (String.mk [Isotope2, '+']) (String.mk [Isotope2])
      (String.mk [Isotope1, '+'])
      = some (apply_transfers state (String.mk [Isotope1]) (String.mk [Isotope2, '+'])
          (String.mk [Isotope2]) (String.mk [Isotope1, '+'])
          (rate_fields model self.toHydrogenChargeExchange a1 i1),
        rate_fields model self.toHydrogenChargeExchange a1 i1) := by
    simp [calculate_rates, ha1, hi1, ha2, hi2]
  have hatom := momentum_source_apply_transfers state (String.mk [Isotope1])
    (String.mk [Isotope2, '+']) (String.mk [Isotope2]) (String.mk [Isotope1, '+'])
    (rate_fields model self.toHydrogenChargeExchange a1 i1) (String.mk [Isotope1])
  have hion := momentum_source_apply_transfers state (String.mk [Isotope1])
    (String.mk [Isotope2, '+']) (String.mk [Isotope2]) (String.mk [Isotope1, '+'])
    (rate_fields model self.toHydrogenChargeExchange a1 i1) (String.mk [Isotope1, '+'])
  rw [ha1] at hatom
  rw [hi2] at hion
  simp only [Option.map_some', atom_key_ne_ion_key, (atom_key_ne_ion_key _ _).symm,
    atom_key_eq_iff, ion_key_eq_iff, if_true, if_false, id, Option.map_eq_some'] at hatom hion
  obtain ⟨atom_after, hA, hAm⟩ := hatom
  obtain ⟨ion_after, hI, hIm⟩ := hion
  by_cases hsame : Isotope1 = Isotope2
  · subst hsame
    refine ⟨{ self with
                F := some ((rate_fields model self.toHydrogenChargeExchange a1 i1).ion_mom
                  - (rate_fields model self.toHydrogenChargeExchange a1 i1).atom_mom),
                E := some ((rate_fields model self.toHydrogenChargeExchange a1 i1).ion_energy
                  - (rate_fields model self.toHydrogenChargeExchange a1 i1).atom_energy) },
      _, _, atom_after, ion_after, ?_, rfl, hA, hI, ?_⟩
    · simp [HydrogenChargeExchangeIsotope.transform, hc, hdiag]
    · intro x
      simp only [if_true] at hAm hIm
      rw [hAm, hIm]
      simp only [Pi.add_apply, Pi.neg_apply, Pi.sub_apply]
      constructor <;> ring
  · have hsame2 : ¬ Isotope2 = Isotope1 := fun h => hsame h.symm
    refine ⟨{ self with
                S := some (-(rate_fields model self.toHydrogenChargeExchange a1 i1).R),
                F := some (-(rate_fields model self.toHydrogenChargeExchange a1 i1).atom_mom),
                F2 := some (-(rate_fields model self.toHydrogenChargeExchange a1 i1).ion_mom),
                E := some (-(rate_fields model self.toHydrogenChargeExchange a1 i1).atom_energy),
                E2 := some (-(rate_fields model self.toHydrogenChargeExchange a1 i1).ion_energy) },
      _, _, atom_after, ion_after, ?_, rfl, hA, hI, ?_⟩
    · simp [HydrogenChargeExchangeIsotope.transform, hc, hdiag, hsame]
    · intro x
      simp only [hsame, hsame2, if_true, if_false, id] at hAm hIm
      rw [hAm, hIm]
      simp only [Pi.add_apply, Pi.neg_apply, Pi.sub_apply]
      constructor <;> ring

/-- C4, instantiated twice, with the values worked out. The (h,h) instance on
the sample state, where the hydrogen ions drift: `F = 3`, the hydrogen atoms
gain the momentum source 3 and the hydrogen ions lose 3. The (h,d) instance on
the drifting state, where the hydrogen atoms carry momentum 2 per particle:
`F = -2`, the hydrogen atoms lose 2 and the hydrogen ions gain 2. -/
theorem momentum_diagnostic_is_net_source_witness :
    sample_self.diagnose = true
    ∧ sample_state "h" = some (uniform_species 1 1 0 5)
    ∧ sample_state "h+" = some (uniform_species 1 1 3 5)
    ∧ (∃ self1 state1 F atom_after ion_after,
        HydrogenChargeExchangeIsotope.transform (calculate_rates sample_model) 'h' 'h'
          sample_self sample_state = some (self1, state1)
      ∧ self1.F = some F
      ∧ state1 "h" = some atom_after
      ∧ state1 "h+" = some ion_after
      ∧ ∀ x, F x = 3
          ∧ (uniform_species 1 1 0 5).momentum_source x = 0
          ∧ atom_after.momentum_source x = 3
          ∧ (uniform_species 1 1 3 5).momentum_source x = 0
          ∧ ion_after.momentum_source x = -3)
    ∧ drifting_state "h" = some (uniform_species 1 1 2 5)
    ∧ drifting_state "d+" = some (uniform_species 2 1 4 5)
    ∧ drifting_state "d" = some (uniform_species 2 2 1 5)
    ∧ drifting_state "h+" = some (uniform_species 1 1 3 5)
    ∧ (∃ self1 state1 F atom_after ion_after,
        HydrogenChargeExchangeIsotope.transform (calculate_rates sample_model) 'h' 'd'
          sample_self drifting_state = some (self1, state1)
      ∧ self1.F = some F
      ∧ state1 "h" = some atom_after
      ∧ state1 "h+" = some ion_after
      ∧ ∀ x, F x = -2
          ∧ (uniform_species 1 1 2 5).momentum_source x = 0
          ∧ atom_after.momentum_source x = -2
          ∧ (uniform_species 1 1 3 5).momentum_source x = 0
          ∧ ion_after.momentum_source x = 2) := by
  refine ⟨rfl, rfl, rfl, ?_, rfl, rfl, rfl, rfl, ?_⟩
  · obtain ⟨self1, state1, F, atom_after, ion_after, ht, hF, hA, hI, hx⟩ :=
      momentum_diagnostic_is_net_source sample_model 'h' 'h' sample_self sample_state
        (uniform_species 1 1 0 5) (uniform_species 1 1 3 5) (uniform_species 1 1 0 5)
        (uniform_species 1 1 3 5) rfl rfl rfl rfl rfl
    have ht2 : HydrogenChargeExchangeIsotope.transform (calculate_rates sample_model) 'h' 'h'
        sample_self sample_state
        = some ({ sample_self with
                    F := some (sample_rates_hh.ion_mom - sample_rates_hh.atom_mom),
                    E := some (sample_rates_hh.ion_energy - sample_rates_hh.atom_energy) },
            apply_transfers sample_state "h" "h+" "h" "h+" sample_rates_hh) := rfl
    rw [ht2] at ht
    simp only [Option.some.injEq, Prod.mk.injEq] at ht
    obtain ⟨rfl, rfl⟩ := ht
    simp only [Option.some.injEq] at hF
    subst hF
    refine ⟨_, _, _, atom_after, ion_after, ht2, rfl, hA, hI, fun x => ?_⟩
    obtain ⟨h1, h2⟩ := hx x
    have hval : (sample_rates_hh.ion_mom - sample_rates_hh.atom_mom) x = 3 := by
      norm_num [sample_rates_hh, rate_fields, uniform_species, sample_model]
    have h0 : (uniform_species 1 1 0 5).momentum_source x = 0 := rfl
    have h0i : (uniform_species 1 1 3 5).momentum_source x = 0 := rfl
    rw [hval, h0] at h1
    rw [hval, h0i] at h2
    refine ⟨hval, h0, ?_, h0i, ?_⟩ <;> linarith
  · obtain ⟨self1, state1, F, atom_after, ion_after, ht, hF, hA, hI, hx⟩ :=
      momentum_diagnostic_is_net_source sample_model 'h' 'd' sample_self drifting_state
        (uniform_species 1 1 2 5) (uniform_species 2 1 4 5) (uniform_species 2 2 1 5)
        (uniform_species 1 1 3 5) rfl rfl rfl rfl rfl
    have ht2 : HydrogenChargeExchangeIsotope.transform (calculate_rates sample_model) 'h' 'd'
        sample_self drifting_state
        = some ({ sample_self with
                    S := some (-drifting_rates_hd.R),
                    F := some (-drifting_rates_hd.atom_mom),
                    F2 := some (-drifting_rates_hd.ion_mom),
                    E := some (-drifting_rates_hd.atom_energy),
                    E2 := some (-drifting_rates_hd.ion_energy) },
            apply_transfers drifting_state "h" "d+" "d" "h+" drifting_rates_hd) := rfl
    rw [ht2] at ht
    simp only [Option.some.injEq, Prod.mk.injEq] at ht
    obtain ⟨rfl, rfl⟩ := ht
    simp only [Option.some.injEq] at hF
    subst hF
    refine ⟨_, _, _, atom_after, ion_after, ht2, rfl, hA, hI, fun x => ?_⟩
    obtain ⟨h1, h2⟩ := hx x
    have hval : (-drifting_rates_hd.atom_mom) x = -2 := by
      norm_num [drifting_rates_hd, rate_fields, uniform_species, sample_model]
    have h0 : (uniform_species 1 1 2 5).momentum_source x = 0 := rfl
    have h0i : (uniform_species 1 1 3 5).momentum_source x = 0 := rfl
    rw [hval, h0] at h1
    rw [hval, h0i] at h2
    refine ⟨hval, h0, ?_, h0i, ?_⟩ <;> linarith

/-! ## The two directions of a cross-isotope pair -/

/-- C2, evaluated on the sample state: both the (h,d) and the (d,h) instance
return; the first sets `S = -1` everywhere (one hydrogen atom density times one
deuterium ion density), the second `S = -2` everywhere (two deuterium atom
densities times one hydrogen ion density), so `S_hd` is not `-S_dh` at any grid
point. -/
theorem mirror_particle_sources_on_sample :
    ∃ self_hd state_hd self_dh state_dh S_hd S_dh,
        HydrogenChargeExchangeIsotope.transform (calculate_rates sample_model) 'h' 'd'
          sample_self sample_state = some (self_hd, state_hd)
      ∧ HydrogenChargeExchangeIsotope.transform (calculate_rates sample_model) 'd' 'h'
          sample_self sample_state = some (self_dh, state_dh)
      ∧ self_hd.S = some S_hd
      ∧ self_dh.S = some S_dh
      ∧ ∀ x, S_hd x = -1 ∧ S_dh x = -2 ∧ S_hd x ≠ - S_dh x := by
  have hhd : calculate_rates sample_model sample_self.toHydrogenChargeExchange sample_state
      (String.mk ['h']) (String.mk ['d', '+']) (String.mk ['d']) (String.mk ['h', '+'])
      = some (apply_transfers sample_state "h" "d+" "d" "h+" sample_rates_hd,
          sample_rates_hd) := rfl
  have hdh : calculate_rates sample_model sample_self.toHydrogenChargeExchange sample_state
      (String.mk ['d']) (String.mk ['h', '+']) (String.mk ['h']) (String.mk ['d', '+'])
      = some (apply_transfers sample_state "d" "h+" "h" "d+" sample_rates_dh,
          sample_rates_dh) := rfl
  refine ⟨{ sample_self with
              S := some (-sample_rates_hd.R), F := some (-sample_rates_hd.atom_mom),
              F2 := some (-sample_rates_hd.ion_mom), E := some (-sample_rates_hd.atom_energy),
              E2 := some (-sample_rates_hd.ion_energy) },
    apply_transfers sample_state "h" "d+" "d" "h+" sample_rates_hd,
    { sample_self with
              S := some (-sample_rates_dh.R), F := some (-sample_rates_dh.atom_mom),
              F2 := some (-sample_rates_dh.ion_mom), E := some (-sample_rates_dh.atom_energy),
              E2 := some (-sample_rates_dh.ion_energy) },
    apply_transfers sample_state "d" "h+" "h" "d+" sample_rates_dh,
    -sample_rates_hd.R, -sample_rates_dh.R, ?_, ?_, rfl, rfl, ?_⟩
  · unfold HydrogenChargeExchangeIsotope.transform
    rw [hhd]
    rfl
  · unfold HydrogenChargeExchangeIsotope.transform
    rw [hdh]
    rfl
  · intro x
    norm_num [sample_rates_hd, sample_rates_dh, rate_fields, uniform_species, sample_model]

end Hermes
